import Mathlib

/-!
Shallow embedding of the GnuCash options engine
(src/libgnucash/app-utils/gnc-option.hpp).

Each C++ option-cell class becomes a Lean structure; member functions become
pure functions on those structures.  Mutating member functions that may throw
are modelled as state-passing functions returning the (possibly unchanged)
object together with an `Option GncError` describing the exception, so that the
strong exception-safety behaviour of the source is visible in the model.
Constructors that may throw return `Except GncError`.  The external UI widget
pointer (`GncOptionUIItem*`) is modelled as `Option Nat` (`none` = `nullptr`,
`some n` = a concrete widget identity); the opaque `QofInstance*`/`QofQuery*`
pointers are likewise modelled as `Option Nat`, and `std::vector<GncGUID>` as
`List Nat`.  `time64` is `int64_t`, modelled as `Int`; the current wall clock
(`GncDateTime()`) is an explicit `now : Int` argument wherever the source reads
it.
-/

/-- The UI dispatch enum `GncOptionUIType` of gnc-option.hpp. -/
inductive GncOptionUIType where
  | INTERNAL
  | BOOLEAN
  | STRING
  | TEXT
  | CURRENCY
  | COMMODITY
  | MULTICHOICE
  | DATE
  | ACCOUNT_LIST
  | ACCOUNT_SEL
  | LIST
  | NUMBER_RANGE
  | COLOR
  | FONT
  | BUDGET
  | PIXMAP
  | RADIOBUTTON
  | DATE_FORMAT
  | OWNER
  | CUSTOMER
  | VENDOR
  | EMPLOYEE
  | INVOICE
  | TAX_TABLE
  | QUERY
  deriving DecidableEq, Repr

/-- The error taxonomy: each C++ exception thrown by the engine, named after
the spec's taxonomy (`InvalidArgument` = construction-time
`std::invalid_argument`, `ValidationFailed` = `set_value` rejection,
`InvalidOperation` = the `std::logic_error`s of the UI mixin, `OutOfRange` =
`std::out_of_range` from `std::vector::at`). -/
inductive GncError where
  | InvalidArgument
  | ValidationFailed
  | InvalidOperation
  | OutOfRange
  deriving DecidableEq, Repr

/-- `struct OptionClassifier`: section, name, sort tag, doc string. -/
structure OptionClassifier where
  m_section : String
  m_name : String
  m_sort_tag : String
  m_doc_string : String
  deriving DecidableEq, Repr

/-- `class OptionUIItem`: a non-owning UI widget pointer plus the UI type. -/
structure OptionUIItem where
  m_ui_item : Option Nat
  m_ui_type : GncOptionUIType
  deriving DecidableEq, Repr

/-- The protected constructor `OptionUIItem(GncOptionUIType ui_type)`:
`m_ui_item{nullptr}, m_ui_type{ui_type}`. -/
def OptionUIItem.construct (ui_type : GncOptionUIType) : OptionUIItem :=
  { m_ui_item := none, m_ui_type := ui_type }

def OptionUIItem.get_ui_type (o : OptionUIItem) : GncOptionUIType :=
  o.m_ui_type

def OptionUIItem.get_ui_item (o : OptionUIItem) : Option Nat :=
  o.m_ui_item

/-- `clear_ui_item()`: `m_ui_item = nullptr`. -/
def OptionUIItem.clear_ui_item (o : OptionUIItem) : OptionUIItem :=
  { o with m_ui_item := none }

/-- `set_ui_item(GncOptionUIItem*)`: throws `std::logic_error` when the option
is INTERNAL, otherwise stores the pointer. -/
def OptionUIItem.set_ui_item (o : OptionUIItem) (ui_item : Option Nat) :
    OptionUIItem × Option GncError :=
  if o.m_ui_type = GncOptionUIType.INTERNAL then
    (o, some GncError.InvalidOperation)
  else
    ({ o with m_ui_item := ui_item }, none)

/-- `make_internal()`: throws `std::logic_error` when a UI element is attached,
otherwise sets the UI type to INTERNAL. -/
def OptionUIItem.make_internal (o : OptionUIItem) :
    OptionUIItem × Option GncError :=
  if o.m_ui_item ≠ none then
    (o, some GncError.InvalidOperation)
  else
    ({ o with m_ui_type := GncOptionUIType.INTERNAL }, none)

/-- States of the UI mixin reachable from a constructor call by the UI-binding
operations (including the failing calls, which leave the state unchanged). -/
inductive UIReachable : OptionUIItem → Prop where
  | construct (ui_type : GncOptionUIType) :
      UIReachable (OptionUIItem.construct ui_type)
  | set_ui (o : OptionUIItem) (ui_item : Option Nat) :
      UIReachable o → UIReachable (o.set_ui_item ui_item).1
  | clear_ui (o : OptionUIItem) :
      UIReachable o → UIReachable o.clear_ui_item
  | internal (o : OptionUIItem) :
      UIReachable o → UIReachable o.make_internal.1

/-- `template <typename ValueType> class GncOptionValue`: the plain value cell.
Fields `classifier` and `ui` stand for the `OptionClassifier` and
`OptionUIItem` base subobjects. -/
structure GncOptionValue (α : Type) where
  classifier : OptionClassifier
  ui : OptionUIItem
  m_value : α
  m_default_value : α

/-- The `GncOptionValue` constructor: `m_value{value}, m_default_value{value}`. -/
def GncOptionValue.construct (c : OptionClassifier)
    (ui_type : GncOptionUIType) (value : α) : GncOptionValue α :=
  { classifier := c, ui := OptionUIItem.construct ui_type,
    m_value := value, m_default_value := value }

def GncOptionValue.get_value (o : GncOptionValue α) : α :=
  o.m_value

def GncOptionValue.get_default_value (o : GncOptionValue α) : α :=
  o.m_default_value

/-- `set_value(ValueType new_value) { m_value = new_value; }` — no validation. -/
def GncOptionValue.set_value (o : GncOptionValue α) (new_value : α) :
    GncOptionValue α :=
  { o with m_value := new_value }

/-- `template <typename ValueType> class GncOptionValidatedValue`.
`m_validation_data` is only set by the second constructor, which the fragment
never instantiates; the modelled constructor leaves it `none`. -/
structure GncOptionValidatedValue (α : Type) where
  classifier : OptionClassifier
  ui : OptionUIItem
  m_value : α
  m_default_value : α
  m_validator : α → Bool
  m_validation_data : Option α

/-- `validate(ValueType value) { return m_validator(value); }` -/
def GncOptionValidatedValue.validate (o : GncOptionValidatedValue α)
    (value : α) : Bool :=
  o.m_validator value

/-- The `GncOptionValidatedValue` constructor: initializes value and default to
`value`, then throws `std::invalid_argument` when `validate(value)` fails. -/
def GncOptionValidatedValue.construct (c : OptionClassifier)
    (ui_type : GncOptionUIType) (value : α) (validator : α → Bool) :
    Except GncError (GncOptionValidatedValue α) :=
  if GncOptionValidatedValue.validate
      { classifier := c, ui := OptionUIItem.construct ui_type,
        m_value := value, m_default_value := value,
        m_validator := validator, m_validation_data := none } value then
    Except.ok
      { classifier := c, ui := OptionUIItem.construct ui_type,
        m_value := value, m_default_value := value,
        m_validator := validator, m_validation_data := none }
  else
    Except.error GncError.InvalidArgument

def GncOptionValidatedValue.get_value (o : GncOptionValidatedValue α) : α :=
  o.m_value

def GncOptionValidatedValue.get_default_value
    (o : GncOptionValidatedValue α) : α :=
  o.m_default_value

/-- `set_value(ValueType value)`: stores the value when `validate` accepts it,
otherwise throws `std::invalid_argument` ("Validation failed, value not set.")
leaving the object untouched. -/
def GncOptionValidatedValue.set_value (o : GncOptionValidatedValue α)
    (value : α) : GncOptionValidatedValue α × Option GncError :=
  if o.validate value then
    ({ o with m_value := value }, none)
  else
    (o, some GncError.ValidationFailed)

/-- Validated cells reachable from a successful constructor call by any
sequence of `set_value` calls (accepted or rejected). -/
inductive ValidatedReachable {α : Type} : GncOptionValidatedValue α → Prop where
  | construct (c : OptionClassifier) (ui_type : GncOptionUIType) (value : α)
      (validator : α → Bool) (o : GncOptionValidatedValue α) :
      GncOptionValidatedValue.construct c ui_type value validator =
        Except.ok o →
      ValidatedReachable o
  | step (o : GncOptionValidatedValue α) (value : α) :
      ValidatedReachable o → ValidatedReachable (o.set_value value).1

/-- `template <typename ValueType> class GncOptionRangeValue`. -/
structure GncOptionRangeValue (α : Type) where
  classifier : OptionClassifier
  ui : OptionUIItem
  m_value : α
  m_default_value : α
  m_min : α
  m_max : α
  m_step : α

/-- The `GncOptionRangeValue` constructor:
`m_value{value >= min && value <= max ? value : min}` and identically for the
default; the UI type is hard-wired to `NUMBER_RANGE`. -/
def GncOptionRangeValue.construct [LinearOrder α] (c : OptionClassifier)
    (value vmin vmax vstep : α) : GncOptionRangeValue α :=
  { classifier := c,
    ui := OptionUIItem.construct GncOptionUIType.NUMBER_RANGE,
    m_value := if vmin ≤ value ∧ value ≤ vmax then value else vmin,
    m_default_value := if vmin ≤ value ∧ value ≤ vmax then value else vmin,
    m_min := vmin, m_max := vmax, m_step := vstep }

def GncOptionRangeValue.get_value (o : GncOptionRangeValue α) : α :=
  o.m_value

def GncOptionRangeValue.get_default_value (o : GncOptionRangeValue α) : α :=
  o.m_default_value

/-- `validate(ValueType value) { return value >= m_min && value <= m_max; }` -/
def GncOptionRangeValue.validate [LinearOrder α] (o : GncOptionRangeValue α)
    (value : α) : Bool :=
  decide (o.m_min ≤ value ∧ value ≤ o.m_max)

/-- `set_value(ValueType value)`: stores the value when `validate` accepts it,
otherwise throws `std::invalid_argument` leaving the object untouched. -/
def GncOptionRangeValue.set_value [LinearOrder α] (o : GncOptionRangeValue α)
    (value : α) : GncOptionRangeValue α × Option GncError :=
  if o.validate value then
    ({ o with m_value := value }, none)
  else
    (o, some GncError.ValidationFailed)

/-- `GncMultiChoiceOptionEntry = std::tuple<const std::string, const
std::string, const std::string>`: key, display name, description. -/
abbrev GncMultiChoiceOptionEntry : Type := String × String × String

/-- `GncMultiChoiceOptionChoices = std::vector<GncMultiChoiceOptionEntry>`. -/
abbrev GncMultiChoiceOptionChoices : Type := List GncMultiChoiceOptionEntry

/-- `std::numeric_limits<std::size_t>::max()`, the "not found" sentinel of
`find_key` on a 64-bit platform. -/
def SIZE_MAX : Nat := 2 ^ 64 - 1

/-- `class GncOptionMultichoiceValue`: the value is the index of the selected
entry in `m_choices`. -/
structure GncOptionMultichoiceValue where
  classifier : OptionClassifier
  ui : OptionUIItem
  m_value : Nat
  m_default_value : Nat
  m_choices : GncMultiChoiceOptionChoices

/-- The `GncOptionMultichoiceValue` constructor:
`m_value{}, m_default_value{}, m_choices{std::move(choices)}` — both indices
are value-initialized to 0 and the choice list is taken as given (no
emptiness or bounds check). -/
def GncOptionMultichoiceValue.construct (c : OptionClassifier)
    (choices : GncMultiChoiceOptionChoices) (ui_type : GncOptionUIType) :
    GncOptionMultichoiceValue :=
  { classifier := c, ui := OptionUIItem.construct ui_type,
    m_value := 0, m_default_value := 0, m_choices := choices }

/-- Index of the first entry of `l` whose key (`std::get<0>`) equals `key`,
as found by `std::find_if` walking the vector front to back. -/
def findFirstKey (key : String) : List GncMultiChoiceOptionEntry → Option Nat
  | [] => none
  | c :: rest =>
      if c.1 = key then some 0 else (findFirstKey key rest).map (· + 1)

/-- `find_key(const std::string& key)`: the index of the first entry whose key
matches, or `SIZE_MAX` when `std::find_if` reaches the end. -/
def GncOptionMultichoiceValue.find_key (o : GncOptionMultichoiceValue)
    (key : String) : Nat :=
  match findFirstKey key o.m_choices with
  | some i => i
  | none => SIZE_MAX

/-- `get_value()`: `std::get<0>(m_choices.at(m_value))`; `std::vector::at`
throws `std::out_of_range` when the stored index has no entry. -/
def GncOptionMultichoiceValue.get_value (o : GncOptionMultichoiceValue) :
    Except GncError String :=
  match o.m_choices[o.m_value]? with
  | some c => Except.ok c.1
  | none => Except.error GncError.OutOfRange

/-- `get_default_value()`: `std::get<0>(m_choices.at(m_default_value))`. -/
def GncOptionMultichoiceValue.get_default_value
    (o : GncOptionMultichoiceValue) : Except GncError String :=
  match o.m_choices[o.m_default_value]? with
  | some c => Except.ok c.1
  | none => Except.error GncError.OutOfRange

/-- `validate(const std::string& value)`: `find_key(value) != SIZE_MAX`. -/
def GncOptionMultichoiceValue.validate (o : GncOptionMultichoiceValue)
    (value : String) : Bool :=
  decide (o.find_key value ≠ SIZE_MAX)

/-- `set_value(const std::string& value)`: resolves the key with `find_key`;
stores the index when found, otherwise throws `std::invalid_argument`
("Value not a valid choice.") leaving the object untouched. -/
def GncOptionMultichoiceValue.set_value (o : GncOptionMultichoiceValue)
    (value : String) : GncOptionMultichoiceValue × Option GncError :=
  let index := o.find_key value
  if index ≠ SIZE_MAX then
    ({ o with m_value := index }, none)
  else
    (o, some GncError.ValidationFailed)

/-- `num_permissible_values()`: `m_choices.size()`. -/
def GncOptionMultichoiceValue.num_permissible_values
    (o : GncOptionMultichoiceValue) : Nat :=
  o.m_choices.length

/-- `permissible_value_index(const std::string& key)`: `find_key(key)`,
`noexcept` — the sentinel, not an exception, signals "not found". -/
def GncOptionMultichoiceValue.permissible_value_index
    (o : GncOptionMultichoiceValue) (key : String) : Nat :=
  o.find_key key

/-- `permissible_value(std::size_t index)`: `std::get<0>(m_choices.at(index))`. -/
def GncOptionMultichoiceValue.permissible_value (o : GncOptionMultichoiceValue)
    (index : Nat) : Except GncError String :=
  match o.m_choices[index]? with
  | some c => Except.ok c.1
  | none => Except.error GncError.OutOfRange

/-- `enum class DateType`. -/
inductive DateType where
  | ABSOLUTE
  | STARTING
  | ENDING
  deriving DecidableEq, Repr

/-- `enum class RelativeDatePeriod`. -/
inductive RelativeDatePeriod where
  | TODAY
  | THIS_MONTH
  | PREV_MONTH
  | CURRENT_QUARTER
  | PREV_QUARTER
  | CAL_YEAR
  | PREV_YEAR
  | ACCOUNTING_PERIOD
  deriving DecidableEq, Repr

/-- `class GncOptionDateValue`; `time64` (an `int64_t`) is modelled as `Int`. -/
structure GncOptionDateValue where
  classifier : OptionClassifier
  ui : OptionUIItem
  m_type : DateType
  m_period : RelativeDatePeriod
  m_date : Int
  deriving DecidableEq, Repr

/-- The `GncOptionDateValue` constructor: UI type `DATE`, `ABSOLUTE`/`TODAY`,
and `m_date{static_cast<time64>(GncDateTime())}` — the wall clock at
construction time, passed here as `now`. -/
def GncOptionDateValue.construct (c : OptionClassifier) (now : Int) :
    GncOptionDateValue :=
  { classifier := c, ui := OptionUIItem.construct GncOptionUIType.DATE,
    m_type := DateType.ABSOLUTE, m_period := RelativeDatePeriod.TODAY,
    m_date := now }

/-- Modelled from the spec: `time64 GncOptionDateValue::get_value() const` is
only declared in src/libgnucash/app-utils/gnc-option.hpp, its body lives in a
translation unit outside the excerpt.  Per the spec, absolute mode returns the
stored timestamp and relative modes compute the period boundary against the
current time; the boundary computation itself is not in the excerpt, so the
relative case is abstracted to the injected current time. -/
def GncOptionDateValue.get_value (o : GncOptionDateValue) (now : Int) : Int :=
  match o.m_type with
  | DateType.ABSOLUTE => o.m_date
  | _ => now

/-- `get_default_value()`: `static_cast<time64>(GncDateTime())` — the wall
clock at the time of the call, passed here as `now`. -/
def GncOptionDateValue.get_default_value (_o : GncOptionDateValue)
    (now : Int) : Int :=
  now

/-- `set_value(time64 time)`: switches to absolute mode and stores the time. -/
def GncOptionDateValue.set_value_time (o : GncOptionDateValue) (time : Int) :
    GncOptionDateValue :=
  { o with m_type := DateType.ABSOLUTE,
           m_period := RelativeDatePeriod.TODAY, m_date := time }

/-- The closed set of C++ value types over which the façade's `get_value<T>` /
`set_value<T>` templates are dispatched: each tag is one
`std::decay_t<decltype(option.get_value())>` of some variant alternative.
`time64` is a typedef of `int64_t`, so the date cell shares `tInt64`;
`int` (the range cell) and `int64_t` are distinct C++ types and get distinct
tags; `QofInstance*` and `QofQuery*` are distinct pointer types. -/
inductive GncType where
  | tString
  | tBool
  | tInt64
  | tQofInstance
  | tQofQuery
  | tGuidVec
  | tInt
  | tDouble
  deriving DecidableEq, Repr

/-- A value of one of the façade's dispatchable C++ types, tagged by its type.
`double` is modelled as `Rat` (exact comparisons only are used). -/
inductive GncValue where
  | vString (s : String)
  | vBool (b : Bool)
  | vInt64 (i : Int)
  | vQofInstance (p : Option Nat)
  | vQofQuery (p : Option Nat)
  | vGuidVec (l : List Nat)
  | vInt (i : Int)
  | vDouble (q : Rat)
  deriving DecidableEq, Repr

/-- The static C++ type of a tagged value. -/
def GncValue.typeOf : GncValue → GncType
  | .vString _ => GncType.tString
  | .vBool _ => GncType.tBool
  | .vInt64 _ => GncType.tInt64
  | .vQofInstance _ => GncType.tQofInstance
  | .vQofQuery _ => GncType.tQofQuery
  | .vGuidVec _ => GncType.tGuidVec
  | .vInt _ => GncType.tInt
  | .vDouble _ => GncType.tDouble

/-- `ValueType {}` — the value-initialized ("none"/zero-equivalent) value of
each dispatchable type: empty string, false, 0, null pointer, empty vector. -/
def GncType.defaultGncValue : GncType → GncValue
  | GncType.tString => GncValue.vString ""
  | GncType.tBool => GncValue.vBool false
  | GncType.tInt64 => GncValue.vInt64 0
  | GncType.tQofInstance => GncValue.vQofInstance none
  | GncType.tQofQuery => GncValue.vQofQuery none
  | GncType.tGuidVec => GncValue.vGuidVec []
  | GncType.tInt => GncValue.vInt 0
  | GncType.tDouble => GncValue.vDouble 0

/-- `GncOptionVariant`, the `std::variant` over the eleven concrete cell
instantiations listed in gnc-option.hpp. -/
inductive GncOptionVariant where
  | stringOpt (o : GncOptionValue String)
  | boolOpt (o : GncOptionValue Bool)
  | int64Opt (o : GncOptionValue Int)
  | instanceOpt (o : GncOptionValue (Option Nat))
  | queryOpt (o : GncOptionValue (Option Nat))
  | guidvecOpt (o : GncOptionValue (List Nat))
  | multichoiceOpt (o : GncOptionMultichoiceValue)
  | rangeIntOpt (o : GncOptionRangeValue Int)
  | rangeDoubleOpt (o : GncOptionRangeValue Rat)
  | validatedOpt (o : GncOptionValidatedValue (Option Nat))
  | dateOpt (o : GncOptionDateValue)

/-- The C++ type `std::decay_t<decltype(option.get_value())>` of the active
alternative — the type against which the façade's `if constexpr
(std::is_same_v ...)` dispatch tests the requested `ValueType`.  The
multichoice cell's `get_value` returns `const std::string&`, the date cell's
returns `time64` = `int64_t`. -/
def GncOptionVariant.underlying : GncOptionVariant → GncType
  | .stringOpt _ => GncType.tString
  | .boolOpt _ => GncType.tBool
  | .int64Opt _ => GncType.tInt64
  | .instanceOpt _ => GncType.tQofInstance
  | .queryOpt _ => GncType.tQofQuery
  | .guidvecOpt _ => GncType.tGuidVec
  | .multichoiceOpt _ => GncType.tString
  | .rangeIntOpt _ => GncType.tInt
  | .rangeDoubleOpt _ => GncType.tDouble
  | .validatedOpt _ => GncType.tQofInstance
  | .dateOpt _ => GncType.tInt64

/-- The `OptionUIItem` base subobject of the active alternative, as reached by
`std::visit`. -/
def GncOptionVariant.ui : GncOptionVariant → OptionUIItem
  | .stringOpt c => c.ui
  | .boolOpt c => c.ui
  | .int64Opt c => c.ui
  | .instanceOpt c => c.ui
  | .queryOpt c => c.ui
  | .guidvecOpt c => c.ui
  | .multichoiceOpt c => c.ui
  | .rangeIntOpt c => c.ui
  | .rangeDoubleOpt c => c.ui
  | .validatedOpt c => c.ui
  | .dateOpt c => c.ui

/-- Replace the `OptionUIItem` base subobject of the active alternative
(the in-place mutation performed through `std::visit`). -/
def GncOptionVariant.withUi : GncOptionVariant → OptionUIItem → GncOptionVariant
  | .stringOpt c, u => .stringOpt { c with ui := u }
  | .boolOpt c, u => .boolOpt { c with ui := u }
  | .int64Opt c, u => .int64Opt { c with ui := u }
  | .instanceOpt c, u => .instanceOpt { c with ui := u }
  | .queryOpt c, u => .queryOpt { c with ui := u }
  | .guidvecOpt c, u => .guidvecOpt { c with ui := u }
  | .multichoiceOpt c, u => .multichoiceOpt { c with ui := u }
  | .rangeIntOpt c, u => .rangeIntOpt { c with ui := u }
  | .rangeDoubleOpt c, u => .rangeDoubleOpt { c with ui := u }
  | .validatedOpt c, u => .validatedOpt { c with ui := u }
  | .dateOpt c, u => .dateOpt { c with ui := u }

/-- `class GncOption`: the façade holding the variant. -/
structure GncOption where
  m_option : GncOptionVariant

/-- `template <typename ValueType> ValueType GncOption::get_value() const`:
visits the active alternative; when the requested type `t` equals the
alternative's underlying value type it returns the cell's `get_value()`
(whose exception, for the multichoice cell, propagates), otherwise it returns
`ValueType {}`.  `now` feeds the date cell's wall-clock read. -/
def GncOption.get_value (o : GncOption) (t : GncType) (now : Int) :
    Except GncError GncValue :=
  match o.m_option with
  | .stringOpt c =>
      if t = GncType.tString then Except.ok (GncValue.vString c.get_value)
      else Except.ok t.defaultGncValue
  | .boolOpt c =>
      if t = GncType.tBool then Except.ok (GncValue.vBool c.get_value)
      else Except.ok t.defaultGncValue
  | .int64Opt c =>
      if t = GncType.tInt64 then Except.ok (GncValue.vInt64 c.get_value)
      else Except.ok t.defaultGncValue
  | .instanceOpt c =>
      if t = GncType.tQofInstance then
        Except.ok (GncValue.vQofInstance c.get_value)
      else Except.ok t.defaultGncValue
  | .queryOpt c =>
      if t = GncType.tQofQuery then Except.ok (GncValue.vQofQuery c.get_value)
      else Except.ok t.defaultGncValue
  | .guidvecOpt c =>
      if t = GncType.tGuidVec then Except.ok (GncValue.vGuidVec c.get_value)
      else Except.ok t.defaultGncValue
  | .multichoiceOpt c =>
      if t = GncType.tString then c.get_value.map GncValue.vString
      else Except.ok t.defaultGncValue
  | .rangeIntOpt c =>
      if t = GncType.tInt then Except.ok (GncValue.vInt c.get_value)
      else Except.ok t.defaultGncValue
  | .rangeDoubleOpt c =>
      if t = GncType.tDouble then Except.ok (GncValue.vDouble c.get_value)
      else Except.ok t.defaultGncValue
  | .validatedOpt c =>
      if t = GncType.tQofInstance then
        Except.ok (GncValue.vQofInstance c.get_value)
      else Except.ok t.defaultGncValue
  | .dateOpt c =>
      if t = GncType.tInt64 then Except.ok (GncValue.vInt64 (c.get_value now))
      else Except.ok t.defaultGncValue

/-- `template <typename ValueType> void GncOption::set_value(ValueType value)`:
visits the active alternative and calls its `set_value` only when the argument
type matches the alternative's underlying value type (the cell's exception
propagates); otherwise the `if constexpr` discards the call and nothing
happens. -/
def GncOption.set_value (o : GncOption) (v : GncValue) :
    GncOption × Option GncError :=
  match o.m_option, v with
  | .stringOpt c, .vString s =>
      ({ m_option := .stringOpt (c.set_value s) }, none)
  | .boolOpt c, .vBool b =>
      ({ m_option := .boolOpt (c.set_value b) }, none)
  | .int64Opt c, .vInt64 i =>
      ({ m_option := .int64Opt (c.set_value i) }, none)
  | .instanceOpt c, .vQofInstance p =>
      ({ m_option := .instanceOpt (c.set_value p) }, none)
  | .queryOpt c, .vQofQuery p =>
      ({ m_option := .queryOpt (c.set_value p) }, none)
  | .guidvecOpt c, .vGuidVec l =>
      ({ m_option := .guidvecOpt (c.set_value l) }, none)
  | .multichoiceOpt c, .vString s =>
      let r := c.set_value s
      ({ m_option := .multichoiceOpt r.1 }, r.2)
  | .rangeIntOpt c, .vInt i =>
      let r := c.set_value i
      ({ m_option := .rangeIntOpt r.1 }, r.2)
  | .rangeDoubleOpt c, .vDouble q =>
      let r := c.set_value q
      ({ m_option := .rangeDoubleOpt r.1 }, r.2)
  | .validatedOpt c, .vQofInstance p =>
      let r := c.set_value p
      ({ m_option := .validatedOpt r.1 }, r.2)
  | .dateOpt c, .vInt64 time =>
      ({ m_option := .dateOpt (c.set_value_time time) }, none)
  | _, _ => (o, none)

/-- `GncOption::set_ui_item`: forwards through `std::visit` to the active
cell's `OptionUIItem::set_ui_item`. -/
def GncOption.set_ui_item (o : GncOption) (ui_item : Option Nat) :
    GncOption × Option GncError :=
  let r := o.m_option.ui.set_ui_item ui_item
  ({ m_option := o.m_option.withUi r.1 }, r.2)

/-- `GncOption::make_internal`: forwards through `std::visit` to the active
cell's `OptionUIItem::make_internal`. -/
def GncOption.make_internal (o : GncOption) : GncOption × Option GncError :=
  let r := o.m_option.ui.make_internal
  ({ m_option := o.m_option.withUi r.1 }, r.2)

/-- `GncOption::get_ui_type`: forwards to the active cell. -/
def GncOption.get_ui_type (o : GncOption) : GncOptionUIType :=
  o.m_option.ui.m_ui_type

/-- `GncOption::get_ui_item`: forwards to the active cell. -/
def GncOption.get_ui_item (o : GncOption) : Option Nat :=
  o.m_option.ui.m_ui_item

/-! Sample concrete objects used to instantiate the theorems below. -/

def sampleClassifier : OptionClassifier :=
  { m_section := "General", m_name := "TestOpt", m_sort_tag := "a",
    m_doc_string := "doc" }

def sampleBoolOption : GncOption :=
  { m_option := GncOptionVariant.boolOpt
      (GncOptionValue.construct sampleClassifier GncOptionUIType.BOOLEAN
        true) }

def sampleChoices : GncMultiChoiceOptionChoices :=
  [("a", "Alpha", ""), ("b", "Beta", "")]

def sampleMultichoice : GncOptionMultichoiceValue :=
  GncOptionMultichoiceValue.construct sampleClassifier sampleChoices
    GncOptionUIType.MULTICHOICE

def emptyMultichoice : GncOptionMultichoiceValue :=
  GncOptionMultichoiceValue.construct sampleClassifier []
    GncOptionUIType.MULTICHOICE

def sampleRange : GncOptionRangeValue Int :=
  GncOptionRangeValue.construct sampleClassifier 5 0 10 1

def sampleDate : GncOptionDateValue :=
  GncOptionDateValue.construct sampleClassifier 0

/-- The cell produced by `GncOptionValidatedValue.construct` from
`sampleClassifier`, initial value 1 and the positivity validator. -/
def sampleValidated : GncOptionValidatedValue Int :=
  { classifier := sampleClassifier,
    ui := OptionUIItem.construct GncOptionUIType.INTERNAL,
    m_value := 1, m_default_value := 1,
    m_validator := fun x => decide (0 < x), m_validation_data := none }

theorem sampleValidated_ok :
    GncOptionValidatedValue.construct sampleClassifier
      GncOptionUIType.INTERNAL (1 : Int) (fun x => decide (0 < x)) =
      Except.ok sampleValidated := rfl

/-! Helper lemmas. -/

theorem GncOptionVariant.ui_withUi (v : GncOptionVariant)
    (u : OptionUIItem) : (v.withUi u).ui = u := by
  cases v <;> rfl

theorem GncOptionVariant.withUi_withUi (v : GncOptionVariant)
    (u u' : OptionUIItem) : (v.withUi u).withUi u' = v.withUi u' := by
  cases v <;> rfl

/-- In every reachable UI-mixin state, an INTERNAL option has no UI element. -/
theorem uiReachable_internal_imp_none (o : OptionUIItem)
    (h : UIReachable o) :
    o.m_ui_type = GncOptionUIType.INTERNAL → o.m_ui_item = none := by
  induction h with
  | construct ui_type => intro _; rfl
  | set_ui o ui_item _ ih =>
      unfold OptionUIItem.set_ui_item
      by_cases hi : o.m_ui_type = GncOptionUIType.INTERNAL
      · simpa [hi] using ih hi
      · simp [hi]
  | clear_ui o _ _ => intro _; rfl
  | internal o _ ih =>
      unfold OptionUIItem.make_internal
      by_cases hi : o.m_ui_item = none
      · simp [hi]
      · simpa [hi] using ih

theorem findFirstKey_eq_none_of_not_mem (key : String)
    (l : List GncMultiChoiceOptionEntry) (h : ∀ e ∈ l, e.1 ≠ key) :
    findFirstKey key l = none := by
  induction l with
  | nil => rfl
  | cons c rest ih =>
      have hc : c.1 ≠ key := h c (by simp)
      simp only [findFirstKey, hc, if_false, ite_false, Option.map_eq_none']
      exact ih (fun e he => h e (by simp [he]))

theorem findFirstKey_isSome_of_mem (key : String)
    (l : List GncMultiChoiceOptionEntry) (h : ∃ e ∈ l, e.1 = key) :
    (findFirstKey key l).isSome = true := by
  induction l with
  | nil => simp at h
  | cons c rest ih =>
      by_cases hc : c.1 = key
      · simp [findFirstKey, hc]
      · obtain ⟨e, he, hk⟩ := h
        rcases List.mem_cons.mp he with rfl | he'
        · exact absurd hk hc
        · have hrest := ih ⟨e, he', hk⟩
          simp only [findFirstKey, hc, ite_false]
          cases hh : findFirstKey key rest with
          | none => rw [hh] at hrest; simp at hrest
          | some i => simp

/-- What `findFirstKey` finds: an in-bounds index whose entry carries the key,
with no earlier entry matching (first match in declaration order). -/
theorem findFirstKey_spec (key : String)
    (l : List GncMultiChoiceOptionEntry) (i : Nat)
    (h : findFirstKey key l = some i) :
    i < l.length ∧ (∃ e, l[i]? = some e ∧ e.1 = key) ∧
      ∀ j, j < i → ∀ e, l[j]? = some e → e.1 ≠ key := by
  induction l generalizing i with
  | nil => simp [findFirstKey] at h
  | cons c rest ih =>
      by_cases hc : c.1 = key
      · simp only [findFirstKey, hc, ite_true, Option.some.injEq] at h
        subst h
        refine ⟨by simp, ⟨c, by simp, hc⟩, ?_⟩
        intro j hj
        omega
      · simp only [findFirstKey, hc, ite_false, Option.map_eq_some'] at h
        obtain ⟨i0, h0, hi⟩ := h
        subst hi
        obtain ⟨hlen, ⟨e, hge, hke⟩, hfirst⟩ := ih i0 h0
        refine ⟨by simpa using hlen, ⟨e, by simpa using hge, hke⟩, ?_⟩
        intro j hj e2 hge2
        cases j with
        | zero =>
            simp only [List.getElem?_cons_zero, Option.some.injEq] at hge2
            subst hge2
            exact hc
        | succ j0 =>
            exact hfirst j0 (by omega) e2 (by simpa using hge2)

/-! Claim theorems. -/

/-- C1: for every façade whose active cell has underlying value type `U` and
every statically requested type `t ≠ U`, `get_value<t>` returns the
value-initialized default `t {}` rather than failing, and `set_value<t>` is a
silent no-op leaving the wrapped cell (value, default, classifier, UI binding)
completely unchanged. -/
theorem C1_facade_type_mismatch_permissive (o : GncOption) (t : GncType)
    (now : Int) (v : GncValue)
    (hg : o.m_option.underlying ≠ t) (hs : o.m_option.underlying ≠ v.typeOf) :
    o.get_value t now = Except.ok t.defaultGncValue ∧
      o.set_value v = (o, none) := by
  obtain ⟨var⟩ := o
  constructor
  · cases var <;>
      · simp only [GncOptionVariant.underlying] at hg
        simp [GncOption.get_value, Ne.symm hg]
  · cases var <;> cases v <;>
      simp_all [GncOption.set_value, GncOptionVariant.underlying,
        GncValue.typeOf]

/-- Witness for C1: a boolean cell accessed at type `std::string`. -/
theorem C1_witness :
    sampleBoolOption.m_option.underlying ≠ GncType.tString ∧
    sampleBoolOption.m_option.underlying ≠ (GncValue.vString "x").typeOf ∧
    (sampleBoolOption.get_value GncType.tString 0 =
        Except.ok (GncType.defaultGncValue GncType.tString) ∧
      sampleBoolOption.set_value (GncValue.vString "x") =
        (sampleBoolOption, none)) :=
  ⟨by decide, by decide,
    C1_facade_type_mismatch_permissive sampleBoolOption GncType.tString 0
      (GncValue.vString "x") (by decide) (by decide)⟩

/-- C2 counterexample: a freshly constructed mixin with a non-INTERNAL UI type
is reachable, carries no UI element, and yet is not INTERNAL — so the claimed
biconditional `ui_kind == INTERNAL ⇔ ui_handle == none` fails on it. -/
theorem C2_counterexample :
    UIReachable (OptionUIItem.construct GncOptionUIType.BOOLEAN) ∧
    ¬ (((OptionUIItem.construct GncOptionUIType.BOOLEAN).m_ui_type =
          GncOptionUIType.INTERNAL) ↔
        ((OptionUIItem.construct GncOptionUIType.BOOLEAN).m_ui_item = none)) :=
  ⟨UIReachable.construct GncOptionUIType.BOOLEAN, by decide⟩

/-- C2 (amended): in every reachable UI-binding state only the forward
implication holds — INTERNAL implies no UI element (the converse fails at
construction with a non-INTERNAL type).  `set_ui_item` fails with
`InvalidOperation` while INTERNAL, `make_internal` fails with
`InvalidOperation` while an element is attached, a successful `make_internal`
followed by `set_ui_item` always fails, and the same holds through the façade
for every concrete cell kind. -/
theorem C2_ui_binding_invariants (o : OptionUIItem) (h : UIReachable o) :
    (o.m_ui_type = GncOptionUIType.INTERNAL → o.m_ui_item = none) ∧
    (o.m_ui_type = GncOptionUIType.INTERNAL →
      ∀ ui_item, o.set_ui_item ui_item =
        (o, some GncError.InvalidOperation)) ∧
    (o.m_ui_item ≠ none →
      o.make_internal = (o, some GncError.InvalidOperation)) ∧
    (∀ o', o.make_internal = (o', none) →
      ∀ ui_item, o'.set_ui_item ui_item =
        (o', some GncError.InvalidOperation)) ∧
    (∀ (g g' : GncOption), g.make_internal = (g', none) →
      ∀ ui_item, g'.set_ui_item ui_item =
        (g', some GncError.InvalidOperation)) := by
  refine ⟨uiReachable_internal_imp_none o h, ?_, ?_, ?_, ?_⟩
  · intro hi ui_item
    simp [OptionUIItem.set_ui_item, hi]
  · intro hi
    simp [OptionUIItem.make_internal, hi]
  · intro o' hmk ui_item
    unfold OptionUIItem.make_internal at hmk
    by_cases hi : o.m_ui_item = none
    · simp only [hi, ne_eq, not_true_eq_false, if_false, ite_false,
        Prod.mk.injEq] at hmk
      obtain ⟨rfl, -⟩ := hmk
      simp [OptionUIItem.set_ui_item]
    · simp [hi] at hmk
  · intro g g' hmk ui_item
    unfold GncOption.make_internal at hmk
    unfold OptionUIItem.make_internal at hmk
    by_cases hi : g.m_option.ui.m_ui_item = none
    · simp only [hi, ne_eq, not_true_eq_false, ite_false,
        Prod.mk.injEq] at hmk
      obtain ⟨rfl, -⟩ := hmk
      unfold GncOption.set_ui_item
      rw [GncOptionVariant.ui_withUi]
      simp [OptionUIItem.set_ui_item, GncOptionVariant.withUi_withUi]
    · simp [hi] at hmk

/-- Witness for C2 (amended) at a freshly constructed STRING-type mixin. -/
theorem C2_witness :
    UIReachable (OptionUIItem.construct GncOptionUIType.STRING) ∧
    (((OptionUIItem.construct GncOptionUIType.STRING).m_ui_type =
        GncOptionUIType.INTERNAL →
      (OptionUIItem.construct GncOptionUIType.STRING).m_ui_item = none)) :=
  ⟨UIReachable.construct GncOptionUIType.STRING,
    (C2_ui_binding_invariants (OptionUIItem.construct GncOptionUIType.STRING)
      (UIReachable.construct GncOptionUIType.STRING)).1⟩

/-- C3 counterexample: the date cell's `get_default_value` reads the wall
clock at each call, so two calls at different times return different values —
the default is not fixed at construction for this cell kind. -/
theorem C3_counterexample :
    sampleDate.get_default_value 5 ≠ sampleDate.get_default_value 7 := by
  decide

/-- C3 (amended): for the plain, validated, range, and multichoice cells the
default is fixed at construction — `get_default_value` is untouched by any
`set_value` and a fresh cell's default equals the constructed one; the date
cell's `get_default_value` instead returns the wall clock of each call. -/
theorem C3_default_fixed_except_date :
    (∀ (α : Type) (c : OptionClassifier) (u : GncOptionUIType) (v0 v1 : α),
      ((GncOptionValue.construct c u v0).set_value v1).get_default_value =
        v0) ∧
    (∀ (α : Type) (o : GncOptionValidatedValue α) (v1 : α),
      ((o.set_value v1).1).get_default_value = o.get_default_value) ∧
    (∀ (α : Type) (c : OptionClassifier) (u : GncOptionUIType) (v0 : α)
        (validator : α → Bool) (o : GncOptionValidatedValue α),
      GncOptionValidatedValue.construct c u v0 validator = Except.ok o →
        o.get_default_value = v0) ∧
    (∀ (α : Type) [LinearOrder α] (o : GncOptionRangeValue α) (v1 : α),
      ((o.set_value v1).1).get_default_value = o.get_default_value) ∧
    (∀ (o : GncOptionMultichoiceValue) (k : String),
      ((o.set_value k).1).get_default_value = o.get_default_value) ∧
    (∀ (o : GncOptionDateValue) (now : Int), o.get_default_value now = now) := by
  refine ⟨fun α c u v0 v1 => rfl, ?_, ?_, ?_, ?_, fun o now => rfl⟩
  · intro α o v1
    unfold GncOptionValidatedValue.set_value
    by_cases hv : o.validate v1 <;>
      simp [hv, GncOptionValidatedValue.get_default_value]
  · intro α c u v0 validator o hok
    unfold GncOptionValidatedValue.construct at hok
    split at hok
    · simp only [Except.ok.injEq] at hok
      subst hok
      rfl
    · cases hok
  · intro α inst o v1
    unfold GncOptionRangeValue.set_value
    by_cases hv : o.validate v1 <;>
      simp [hv, GncOptionRangeValue.get_default_value]
  · intro o k
    unfold GncOptionMultichoiceValue.set_value
    by_cases hv : o.find_key k ≠ SIZE_MAX <;>
      simp [hv, GncOptionMultichoiceValue.get_default_value]

/-- Witness for C3 (amended): the sample validated cell's default is its
constructed value. -/
theorem C3_witness :
    GncOptionValidatedValue.construct sampleClassifier
        GncOptionUIType.INTERNAL (1 : Int) (fun x => decide (0 < x)) =
      Except.ok sampleValidated ∧
    sampleValidated.get_default_value = 1 :=
  ⟨sampleValidated_ok,
    C3_default_fixed_except_date.2.2.1 Int sampleClassifier
      GncOptionUIType.INTERNAL 1 (fun x => decide (0 < x)) sampleValidated
      sampleValidated_ok⟩

/-- C4 counterexample: a multichoice cell constructed with an empty choice
list — its stored index 0 addresses no entry and both `get_value` and
`get_default_value` fail with `OutOfRange`, contradicting "pure reads with no
failure mode". -/
theorem C4_counterexample :
    emptyMultichoice.get_value = Except.error GncError.OutOfRange ∧
    emptyMultichoice.get_default_value = Except.error GncError.OutOfRange := by
  constructor <;> rfl

/-- C4 (amended): multichoice `get_value`/`get_default_value` are reads that
fail with `OutOfRange` exactly when the stored index does not address a choice
entry (in particular on an empty choice list) and succeed otherwise; the other
cell kinds' value getters are total field reads. -/
theorem C4_multichoice_getters (o : GncOptionMultichoiceValue) :
    (o.get_value = Except.error GncError.OutOfRange ↔
      o.m_choices.length ≤ o.m_value) ∧
    (o.m_value < o.m_choices.length → ∃ s, o.get_value = Except.ok s) ∧
    (o.get_default_value = Except.error GncError.OutOfRange ↔
      o.m_choices.length ≤ o.m_default_value) ∧
    (o.m_default_value < o.m_choices.length →
      ∃ s, o.get_default_value = Except.ok s) := by
  unfold GncOptionMultichoiceValue.get_value
    GncOptionMultichoiceValue.get_default_value
  refine ⟨?_, ?_, ?_, ?_⟩
  · cases hh : o.m_choices[o.m_value]? with
    | none => simp [List.getElem?_eq_none_iff.mp hh]
    | some c =>
        have hlt : o.m_value < o.m_choices.length := by
          by_contra hge
          rw [List.getElem?_eq_none_iff.mpr (by omega)] at hh
          cases hh
        simp only [hh]
        constructor
        · intro hcontra; cases hcontra
        · intro hge; exact absurd hlt (by omega)
  · intro hlt
    cases hh : o.m_choices[o.m_value]? with
    | none => have := List.getElem?_eq_none_iff.mp hh; omega
    | some c => exact ⟨c.1, by simp⟩
  · cases hh : o.m_choices[o.m_default_value]? with
    | none => simp [List.getElem?_eq_none_iff.mp hh]
    | some c =>
        have hlt : o.m_default_value < o.m_choices.length := by
          by_contra hge
          rw [List.getElem?_eq_none_iff.mpr (by omega)] at hh
          cases hh
        simp only [hh]
        constructor
        · intro hcontra; cases hcontra
        · intro hge; exact absurd hlt (by omega)
  · intro hlt
    cases hh : o.m_choices[o.m_default_value]? with
    | none => have := List.getElem?_eq_none_iff.mp hh; omega
    | some c => exact ⟨c.1, by simp⟩

/-- Witness for C4 (amended): the two-entry sample cell's stored index is in
bounds and `get_value` succeeds. -/
theorem C4_witness :
    sampleMultichoice.m_value < sampleMultichoice.m_choices.length ∧
    (∃ s, sampleMultichoice.get_value = Except.ok s) :=
  ⟨by decide, (C4_multichoice_getters sampleMultichoice).2.1 (by decide)⟩

/-- C5: the range-cell constructor stores `v` as both value and default when
`min ≤ v ≤ max`, and otherwise silently falls back to `min` for both — a
construction-time clamp, never a rejection. -/
theorem C5_range_construct (α : Type) [LinearOrder α] (c : OptionClassifier)
    (v vmin vmax vstep : α) :
    (vmin ≤ v ∧ v ≤ vmax →
      (GncOptionRangeValue.construct c v vmin vmax vstep).m_value = v ∧
      (GncOptionRangeValue.construct c v vmin vmax vstep).m_default_value =
        v) ∧
    (¬ (vmin ≤ v ∧ v ≤ vmax) →
      (GncOptionRangeValue.construct c v vmin vmax vstep).m_value = vmin ∧
      (GncOptionRangeValue.construct c v vmin vmax vstep).m_default_value =
        vmin) := by
  constructor <;> intro h <;> simp [GncOptionRangeValue.construct, h]

/-- Witness for C5: the spec's concrete scenario `(value 5, min 0, max 10,
step 1)` over the `int` instantiation. -/
theorem C5_witness :
    ((0 : Int) ≤ 5 ∧ (5 : Int) ≤ 10) ∧
    ((GncOptionRangeValue.construct sampleClassifier (5 : Int) 0 10
        1).m_value = 5 ∧
      (GncOptionRangeValue.construct sampleClassifier (5 : Int) 0 10
        1).m_default_value = 5) :=
  ⟨by decide,
    (C5_range_construct Int sampleClassifier 5 0 10 1).1 (by decide)⟩

/-- C6: after construction, range `set_value` rejects every out-of-range value
with `ValidationFailed` leaving the whole cell — stored value and default
included — exactly as before, and accepts every in-range value, storing it. -/
theorem C6_range_set (α : Type) [LinearOrder α] (o : GncOptionRangeValue α)
    (v : α) :
    (¬ (o.m_min ≤ v ∧ v ≤ o.m_max) →
      o.set_value v = (o, some GncError.ValidationFailed)) ∧
    (o.m_min ≤ v ∧ v ≤ o.m_max →
      (o.set_value v).1.m_value = v ∧
      (o.set_value v).1.m_default_value = o.m_default_value ∧
      (o.set_value v).2 = none) := by
  constructor <;> intro h <;>
    simp [GncOptionRangeValue.set_value, GncOptionRangeValue.validate, h]

/-- Witness for C6: the sample range cell rejects 15 unchanged. -/
theorem C6_witness :
    (¬ (sampleRange.m_min ≤ (15 : Int) ∧ (15 : Int) ≤ sampleRange.m_max)) ∧
    sampleRange.set_value 15 = (sampleRange, some GncError.ValidationFailed) :=
  ⟨by decide, (C6_range_set Int sampleRange 15).1 (by decide)⟩

/-- C7: in every validated cell reachable from a successful construction by
any sequence of `set_value` calls, the stored value satisfies the validator
(`set_value` never stores a failing value), and a rejected `set_value` returns
the cell exactly as it was before the call. -/
theorem C7_validated_invariant (α : Type) (o : GncOptionValidatedValue α)
    (h : ValidatedReachable o) :
    o.m_validator o.m_value = true ∧
    ∀ v, (o.set_value v).2 ≠ none → (o.set_value v).1 = o := by
  have hreject : ∀ (o' : GncOptionValidatedValue α) (v : α),
      (o'.set_value v).2 ≠ none → (o'.set_value v).1 = o' := by
    intro o' v
    unfold GncOptionValidatedValue.set_value
    by_cases hv : o'.validate v <;> simp [hv]
  refine ⟨?_, hreject o⟩
  induction h with
  | construct c ui_type value validator o hok =>
      unfold GncOptionValidatedValue.construct at hok
      split at hok
      · rename_i hval
        simp only [Except.ok.injEq] at hok
        subst hok
        simpa [GncOptionValidatedValue.validate] using hval
      · cases hok
  | step o value _ ih =>
      unfold GncOptionValidatedValue.set_value
        GncOptionValidatedValue.validate
      by_cases hv : o.m_validator value = true
      · simp [hv]
      · simpa [hv] using ih

/-- Witness for C7 at the sample validated cell. -/
theorem C7_witness :
    ValidatedReachable sampleValidated ∧
    (sampleValidated.m_validator sampleValidated.m_value = true ∧
      ∀ v, (sampleValidated.set_value v).2 ≠ none →
        (sampleValidated.set_value v).1 = sampleValidated) :=
  ⟨ValidatedReachable.construct sampleClassifier GncOptionUIType.INTERNAL 1
      (fun x => decide (0 < x)) sampleValidated sampleValidated_ok,
    C7_validated_invariant Int sampleValidated
      (ValidatedReachable.construct sampleClassifier GncOptionUIType.INTERNAL
        1 (fun x => decide (0 < x)) sampleValidated sampleValidated_ok)⟩

/-- C8: validated-value construction fails immediately with `InvalidArgument`
when the validator rejects the initial value (no cell is produced), and
succeeds — producing a cell whose value and default are the initial value —
when the validator accepts it. -/
theorem C8_validated_construct (α : Type) (c : OptionClassifier)
    (u : GncOptionUIType) (v : α) (validator : α → Bool) :
    (validator v = false →
      GncOptionValidatedValue.construct c u v validator =
        Except.error GncError.InvalidArgument) ∧
    (validator v = true →
      ∃ o, GncOptionValidatedValue.construct c u v validator = Except.ok o ∧
        o.m_value = v ∧ o.m_default_value = v) := by
  unfold GncOptionValidatedValue.construct
  constructor <;> intro h <;>
    simp [GncOptionValidatedValue.validate, h]

/-- Witness for C8: the spec's concrete scenario, validator `x -> x > 0` with
initial value `-1`: construction fails with `InvalidArgument`. -/
theorem C8_witness :
    ((fun x : Int => decide (0 < x)) (-1) = false) ∧
    GncOptionValidatedValue.construct sampleClassifier
        GncOptionUIType.INTERNAL (-1 : Int) (fun x => decide (0 < x)) =
      Except.error GncError.InvalidArgument :=
  ⟨by decide,
    (C8_validated_construct Int sampleClassifier GncOptionUIType.INTERNAL
      (-1) (fun x => decide (0 < x))).1 (by decide)⟩

/-- C9: for every key matching no entry of a multichoice cell,
`permissible_value_index` returns the `SIZE_MAX` sentinel (and cannot throw),
and `set_value` rejects with `ValidationFailed` leaving the cell — selected
index included — exactly as it was. -/
theorem C9_multichoice_missing_key (o : GncOptionMultichoiceValue)
    (key : String) (h : ∀ e ∈ o.m_choices, e.1 ≠ key) :
    o.permissible_value_index key = SIZE_MAX ∧
    o.set_value key = (o, some GncError.ValidationFailed) := by
  have hfk : o.find_key key = SIZE_MAX := by
    unfold GncOptionMultichoiceValue.find_key
    rw [findFirstKey_eq_none_of_not_mem key o.m_choices h]
  refine ⟨hfk, ?_⟩
  unfold GncOptionMultichoiceValue.set_value
  simp [hfk]

/-- Witness for C9: the two-entry sample cell and the absent key "c". -/
theorem C9_witness :
    (∀ e ∈ sampleMultichoice.m_choices, e.1 ≠ "c") ∧
    (sampleMultichoice.permissible_value_index "c" = SIZE_MAX ∧
      sampleMultichoice.set_value "c" =
        (sampleMultichoice, some GncError.ValidationFailed)) :=
  ⟨by decide, C9_multichoice_missing_key sampleMultichoice "c" (by decide)⟩

/-- C10: for every key present in the choice list (possibly more than once,
with any vector of at most `SIZE_MAX` entries), `set_value` succeeds and
selects the index of the first entry carrying that key in declaration order,
and `get_value` afterwards returns exactly that key. -/
theorem C10_multichoice_set_get (o : GncOptionMultichoiceValue) (key : String)
    (hlen : o.m_choices.length ≤ SIZE_MAX)
    (h : ∃ e ∈ o.m_choices, e.1 = key) :
    (o.set_value key).2 = none ∧
    (o.set_value key).1.m_value = o.find_key key ∧
    o.find_key key < o.m_choices.length ∧
    (∃ e, o.m_choices[o.find_key key]? = some e ∧ e.1 = key) ∧
    (∀ j, j < o.find_key key → ∀ e, o.m_choices[j]? = some e →
      e.1 ≠ key) ∧
    (o.set_value key).1.get_value = Except.ok key := by
  have hsome := findFirstKey_isSome_of_mem key o.m_choices h
  obtain ⟨i, hi⟩ := Option.isSome_iff_exists.mp hsome
  have hfk : o.find_key key = i := by
    unfold GncOptionMultichoiceValue.find_key
    rw [hi]
  obtain ⟨hlt, ⟨e, hge, hke⟩, hfirst⟩ := findFirstKey_spec key o.m_choices i hi
  have hne : i ≠ SIZE_MAX := by omega
  have hset : o.set_value key = ({ o with m_value := i }, none) := by
    unfold GncOptionMultichoiceValue.set_value
    simp [hfk, hne]
  refine ⟨by rw [hset], by rw [hset, hfk], by rw [hfk]; exact hlt,
    ⟨e, by rw [hfk]; exact hge, hke⟩,
    by rw [hfk]; exact hfirst, ?_⟩
  rw [hset]
  unfold GncOptionMultichoiceValue.get_value
  simp only [hge]
  rw [hke]

/-- Witness for C10: the two-entry sample cell and the key "b". -/
theorem C10_witness :
    (sampleMultichoice.m_choices.length ≤ SIZE_MAX ∧
      ∃ e ∈ sampleMultichoice.m_choices, e.1 = "b") ∧
    ((sampleMultichoice.set_value "b").2 = none ∧
      (sampleMultichoice.set_value "b").1.get_value = Except.ok "b") :=
  ⟨⟨by decide, by decide⟩,
    ⟨(C10_multichoice_set_get sampleMultichoice "b" (by decide)
        (by decide)).1,
      (C10_multichoice_set_get sampleMultichoice "b" (by decide)
        (by decide)).2.2.2.2.2⟩⟩


